import Mathlib

/-!
Verification of the geo-gis planar geometry kernel.

The TypeScript source is shallowly embedded over exact rational arithmetic
(coordinates as rationals, distances as reals where the source takes a square
root).  Two point types mirror the two class hierarchies in the source:
`Pt` embeds `src/geometry/Point.ts` (plain x/y, used by the Curve/Surface
family) and `EPt` embeds `src/geometry/base/Point.ts` (x/y, optional z, SRID
and coordinate system, used by the TIN/Triangle family).  Thrown JavaScript
errors are embedded as `Except GeoError`.
-/

namespace GeoGis

/-- Coordinate system enum of `base/CoordinateSystem` (carried opaquely by
base points; only identity comparisons are performed on it). -/
inductive CoordinateSystem where
  | cartesian2D
  | cartesian3D
  | geographic2D
  | geographic3D
deriving DecidableEq, Repr

/-- Thrown `Error` values of the source, identified by their message. -/
inductive GeoError where
  /-- message: Geometry index out of range (GeometryCollection.geometryN) -/
  | geometryIndexOutOfRange
  /-- message: Method not implemented (Curve.distanceToPoint, reached from Curve.contains) -/
  | methodNotImplemented
  /-- message: TIN requires at least 3 points (TIN.validatePoints) -/
  | tinRequiresAtLeastThreePoints
  /-- message: All points must have the same coordinate system (TIN.validatePoints) -/
  | mixedCoordinateSystem
  /-- message: All points must be consistently 2D or 3D (TIN.validatePoints) -/
  | mixedDimensionality
deriving DecidableEq, Repr

/-- `Point` of `src/geometry/Point.ts`: mutable 2D point with `_x`, `_y`. -/
structure Pt where
  x : ℚ
  y : ℚ
deriving DecidableEq, Repr

/-- `Point.equals` of `src/geometry/Point.ts` (lines 52-58):
`this._x === another.x() && this._y === another.y()` (exact comparison). -/
def Pt.equals (p q : Pt) : Bool :=
  p.x == q.x && p.y == q.y

/-- `Point` of `src/geometry/base/Point.ts`: readonly x, y, optional z,
SRID and coordinate system. -/
structure EPt where
  x : ℚ
  y : ℚ
  z : Option ℚ
  srid : ℤ
  cs : CoordinateSystem
deriving DecidableEq, Repr

/-- Base point with default optional arguments of the constructor
(`z = null`, `srid = 0`, `coordinateSystem = CARTESIAN_2D`). -/
def mkEPt (x y : ℚ) : EPt :=
  { x := x, y := y, z := none, srid := 0, cs := CoordinateSystem.cartesian2D }

/-- `Point.is3D` of `base/Point.ts`: `this.z !== null`. -/
def EPt.is3D (p : EPt) : Bool :=
  p.z.isSome

/-- `Point.equals` of `base/Point.ts` (lines 92-108): exact comparison of x
and y, then of z whenever either point is 3D.  SRID and coordinate system
are not compared. -/
def EPt.equals (p q : EPt) : Bool :=
  if p.x ≠ q.x ∨ p.y ≠ q.y then false
  else if p.is3D || q.is3D then p.z == q.z
  else true

/-- `Point.clone` of `base/Point.ts`: a new point with the same fields. -/
def EPt.clone (p : EPt) : EPt :=
  { x := p.x, y := p.y, z := p.z, srid := p.srid, cs := p.cs }

/-! ## Curve family: `LineString.ts`, `LinearRing.ts`, `primitive` base `Curve` (part_004)

A LineString is its `points` array; LinearRing stores the same array. -/

/-- Default point produced by the zero-argument `new Point()` constructor of
`src/geometry/Point.ts` (`x = 0`, `y = 0`). -/
def defaultPt : Pt := { x := 0, y := 0 }

/-- `LineString.isClosed` (LineString.ts lines 40-43): false for fewer than 2
points, else `startPoint().equals(endPoint())`, i.e. first point equals last
point (exact comparison,`Pt.equals`). -/
def LineString.isClosed (pts : List Pt) : Bool :=
  if pts.length < 2 then false
  else (pts.headD defaultPt).equals (pts.getLastD defaultPt)

/-- `LineString.isEmpty` (LineString.ts lines 64-66). -/
def LineString.isEmpty (pts : List Pt) : Bool :=
  pts.length == 0

/-- `LineString.addPoint` (LineString.ts lines 92-94): `this.points.push(point)`. -/
def LineString.addPoint (pts : List Pt) (p : Pt) : List Pt :=
  pts ++ [p]

/-- `LinearRing.addPoint` (LinearRing.ts lines 94-106): push the point via
`super.addPoint`; if the array then has exactly one element push the point
again, otherwise overwrite the last slot with the first element
(`this.points[this.points.length - 1] = this.points[0]`). -/
def LinearRing.addPoint (pts : List Pt) (p : Pt) : List Pt :=
  let pushed := LineString.addPoint pts p
  if pushed.length == 1 then LineString.addPoint pushed p
  else pushed.dropLast ++ [pushed.headD p]

/-- The orientation sum of `LinearRing.isCounterClockwise`
(LinearRing.ts lines 48-53): `sum += (p2.x - p1.x) * (p2.y + p1.y)` over
consecutive point pairs. -/
def LinearRing.orientationSum : List Pt → ℚ
  | p :: q :: rest => (q.x - p.x) * (q.y + p.y) + LinearRing.orientationSum (q :: rest)
  | _ => 0

/-- `LinearRing.isCounterClockwise` (LinearRing.ts lines 42-55): false for
fewer than 4 points, else whether the orientation sum is positive. -/
def LinearRing.isCounterClockwise (pts : List Pt) : Bool :=
  if pts.length < 4 then false
  else decide (0 < LinearRing.orientationSum pts)

/-- `LinearRing.isClockwise` (LinearRing.ts lines 57-60):
`!this.isCounterClockwise()`. -/
def LinearRing.isClockwise (pts : List Pt) : Bool :=
  ! LinearRing.isCounterClockwise pts

/-! ## Boundary geometries

`Curve.boundary` (part_004) and `MultiCurve.boundary` (MultiCurve.ts) return
either a zero-argument `new Point()` - commented in the source as the
representation of an empty boundary - or a `MultiPoint` holding a list of
points.  `BoundaryGeom` embeds that result. -/

/-- Result geometry of the boundary operations: the `new Point()` sentinel or
a `MultiPoint` with its `items` array. -/
inductive BoundaryGeom where
  | point : Pt → BoundaryGeom
  | multiPoint : List Pt → BoundaryGeom
deriving DecidableEq, Repr

/-- `isEmpty()` of the returned boundary geometry: `Point.isEmpty`
(Point.ts lines 37-39) is unconditionally false; `MultiPoint` inherits
`GeometryCollection.isEmpty`, the emptiness of its `items` array. -/
def BoundaryGeom.isEmptyG : BoundaryGeom → Bool
  | .point _ => false
  | .multiPoint ps => ps.isEmpty

/-- `Curve.boundary` (part_004 lines 44-54), as dispatched on a `LineString`
(whose `isEmpty`/`isClosed`/`startPoint`/`endPoint` overrides apply): the
`new Point()` sentinel when empty or closed, else a `MultiPoint` holding the
start point and the end point. -/
def Curve.boundary (pts : List Pt) : BoundaryGeom :=
  if LineString.isEmpty pts || LineString.isClosed pts then
    BoundaryGeom.point defaultPt
  else
    BoundaryGeom.multiPoint [pts.headD defaultPt, pts.getLastD defaultPt]

/-! ## Polygon (part_006, first `Polygon` class) -/

/-- `Polygon` state: `_exteriorRing` and `interiorRings`, each ring being its
points array. -/
structure Polygon where
  exterior : List Pt
  interiors : List (List Pt)
deriving DecidableEq, Repr

/-- The shoelace sum of `Polygon.calculateRingArea` (part_006 lines 341-344):
`area += x[i]*y[i+1] - x[i+1]*y[i]` over consecutive point pairs. -/
def Polygon.shoelaceSum : List Pt → ℚ
  | p :: q :: rest => (p.x * q.y - q.x * p.y) + Polygon.shoelaceSum (q :: rest)
  | _ => 0

/-- `Polygon.calculateRingArea` (part_006 lines 336-347): half the shoelace
sum (signed). -/
def Polygon.calculateRingArea (ring : List Pt) : ℚ :=
  Polygon.shoelaceSum ring / 2

/-- `Polygon.area` (part_006 lines 234-242): absolute exterior ring area minus
the absolute value of the sum of the signed interior ring areas. -/
def Polygon.area (p : Polygon) : ℚ :=
  |Polygon.calculateRingArea p.exterior| -
    |p.interiors.foldl (fun s r => s + Polygon.calculateRingArea r) 0|

/-- `Polygon.numInteriorRing` (part_006 lines 261-263). -/
def Polygon.numInteriorRing (p : Polygon) : ℕ :=
  p.interiors.length

/-- `Polygon.isEmpty` (part_006): `this._exteriorRing.isEmpty()`. -/
def Polygon.isEmpty (p : Polygon) : Bool :=
  LineString.isEmpty p.exterior

/-- `Polygon.boundary` of the implemented variant (part_006 second `Polygon`
class, lines 498-506): a multi-line-string whose items are the exterior ring
followed by the interior rings. -/
def Polygon.boundary (p : Polygon) : List (List Pt) :=
  p.exterior :: p.interiors

/-! ## MultiCurve (MultiCurve.ts)

A MultiCurve is its `items` array of curves; each member curve is a
LineString, i.e. its points array. -/

/-- The sequence of endpoint keys inserted into the counting map by
`MultiCurve.boundary` (MultiCurve.ts lines 78-89): for every member curve
that is neither empty nor closed, its start point followed by its end point.
The map key is the exact coordinate pair, which on the rational model is the
point value itself. -/
def MultiCurve.endpointSeq (items : List (List Pt)) : List Pt :=
  items.flatMap fun c =>
    if LineString.isEmpty c || LineString.isClosed c then []
    else [c.headD defaultPt, c.getLastD defaultPt]

/-- The key list of a JavaScript `Map` fed the given sequence: one entry per
distinct key, in first-insertion order (`Map.set` on an existing key keeps
its position). -/
def mapKeys (l : List Pt) : List Pt :=
  l.foldl (fun ks q => if q ∈ ks then ks else ks ++ [q]) []

/-- The `items` array of the `MultiPoint` built by `MultiCurve.boundary`
(MultiCurve.ts lines 92-99): the endpoint keys whose occurrence count is
odd, in map iteration order. -/
def MultiCurve.boundaryPoints (items : List (List Pt)) : List Pt :=
  (mapKeys (MultiCurve.endpointSeq items)).filter
    fun q => (MultiCurve.endpointSeq items).count q % 2 == 1

/-- `MultiCurve.boundary` (MultiCurve.ts lines 70-102): the `new Point()`
sentinel when the collection is empty, else the `MultiPoint` of
odd-occurrence endpoints. -/
def MultiCurve.boundary (items : List (List Pt)) : BoundaryGeom :=
  if items.length == 0 then BoundaryGeom.point defaultPt
  else BoundaryGeom.multiPoint (MultiCurve.boundaryPoints items)

/-- The start and end points of the member curves as the claim counts them:
every member curve with at least one point contributes its start point and
its end point (an empty curve has neither). -/
def MultiCurve.claimEndpointSeq (items : List (List Pt)) : List Pt :=
  items.flatMap fun c =>
    if LineString.isEmpty c then []
    else [c.headD defaultPt, c.getLastD defaultPt]

/-! ## Surface containment (Surface.ts) -/

/-- `Surface.rayIntersectsCurve` (Surface.ts lines 116-121): the source
returns `false` unconditionally (its own comment calls it a placeholder). -/
def Surface.rayIntersectsCurve (_ray : List Pt) (_curve : List Pt) : Bool :=
  false

/-- `Surface.createRayFromPoint` (Surface.ts lines 99-106): a two-point
LineString from the point to a point 1000000 to its right. -/
def Surface.createRayFromPoint (p : Pt) : List Pt :=
  [p, { x := p.x + 1000000, y := p.y }]

/-- `GeometryCollection.geometryN` (GeometryCollection.ts lines 41-46):
1-indexed access throwing for `n < 1 || n > items.length`. -/
def geometryN (items : List (List Pt)) (n : ℕ) : Except GeoError (List Pt) :=
  if n < 1 ∨ items.length < n then Except.error GeoError.geometryIndexOutOfRange
  else Except.ok (items.getD (n - 1) [])

/-- `Curve.contains` (part_004 lines 59-62) as inherited by LineString and
LinearRing: `this.distanceToPoint(point) === 0`, where the base
`distanceToPoint` (part_004 lines 65-69) throws Method not implemented and
no subclass overrides it. -/
def Curve.contains (_c : List Pt) (_p : Pt) : Except GeoError Bool :=
  Except.error GeoError.methodNotImplemented

/-- The loop of `Surface.isPointOnBoundary` (Surface.ts lines 62-75) over the
index list `0, 1, ..., numGeometries()-1`: fetch `geometryN(i)` and test
`curve.contains(point)`. -/
def Surface.onBoundaryLoop (items : List (List Pt)) (p : Pt) :
    List ℕ → Except GeoError Bool
  | [] => Except.ok false
  | i :: rest => do
      let c ← geometryN items i
      let b ← Curve.contains c p
      if b then Except.ok true else Surface.onBoundaryLoop items p rest

/-- `Surface.isPointOnBoundary` (Surface.ts lines 62-75). -/
def Surface.isPointOnBoundary (items : List (List Pt)) (p : Pt) :
    Except GeoError Bool :=
  Surface.onBoundaryLoop items p (List.range items.length)

/-- The counting loop of `Surface.isPointInInterior` (Surface.ts lines 87-92):
fetch `geometryN(i)` and increment the count when `rayIntersectsCurve`
reports an intersection. -/
def Surface.interiorLoop (items : List (List Pt)) (ray : List Pt) :
    List ℕ → ℕ → Except GeoError ℕ
  | [], cnt => Except.ok cnt
  | i :: rest, cnt => do
      let c ← geometryN items i
      Surface.interiorLoop items ray rest
        (if Surface.rayIntersectsCurve ray c then cnt + 1 else cnt)

/-- `Surface.isPointInInterior` (Surface.ts lines 78-96): ray casting; the
point is inside when the number of ray/boundary intersections is odd. -/
def Surface.isPointInInterior (items : List (List Pt)) (p : Pt) :
    Except GeoError Bool := do
  let cnt ← Surface.interiorLoop items (Surface.createRayFromPoint p)
      (List.range items.length) 0
  Except.ok (cnt % 2 == 1)

/-- `Surface.contains` (Surface.ts lines 47-59) as dispatched on a Polygon
(with the polygon overrides of `isEmpty` and `boundary`): false for an empty
surface; true when the point is on the boundary; else the interior test. -/
def Surface.contains (poly : Polygon) (p : Pt) : Except GeoError Bool :=
  if Polygon.isEmpty poly then Except.ok false
  else do
    let onB ← Surface.isPointOnBoundary (Polygon.boundary poly) p
    if onB then Except.ok true
    else Surface.isPointInInterior (Polygon.boundary poly) p

/-! ## TIN triangle (src/geometry/surface/Triangle.ts) -/

/-- Stored state of a `Triangle` (surface/Triangle.ts): the `vertices`
triple after the constructor has run. -/
structure Triangle where
  v1 : EPt
  v2 : EPt
  v3 : EPt
deriving DecidableEq, Repr

/-- The cross product of `Triangle.isClockwise` (surface/Triangle.ts lines
117-120): `(p2.x - p1.x)*(p3.y - p1.y) - (p3.x - p1.x)*(p2.y - p1.y)`. -/
def Triangle.crossProduct (p1 p2 p3 : EPt) : ℚ :=
  (p2.x - p1.x) * (p3.y - p1.y) - (p3.x - p1.x) * (p2.y - p1.y)

/-- `Triangle.isClockwise` (surface/Triangle.ts lines 117-120): whether the
cross product is positive. -/
def Triangle.isClockwise (p1 p2 p3 : EPt) : Bool :=
  decide (0 < Triangle.crossProduct p1 p2 p3)

/-- The `Triangle` constructor (surface/Triangle.ts lines 10-18): keep the
argument order when `isClockwise(v1, v2, v3)` holds, otherwise store
`[v1, v3, v2]`. -/
def mkTriangle (v1 v2 v3 : EPt) : Triangle :=
  if Triangle.isClockwise v1 v2 v3 then
    { v1 := v1, v2 := v2, v3 := v3 }
  else
    { v1 := v1, v2 := v3, v3 := v2 }

/-- `Triangle.getVertices` (surface/Triangle.ts lines 23-29): clones of the
three stored vertices, in stored order. -/
def Triangle.getVertices (t : Triangle) : EPt × EPt × EPt :=
  (t.v1.clone, t.v2.clone, t.v3.clone)

/-- `Triangle.getCircumcenter` (surface/Triangle.ts lines 53-69): the
circumcenter by the standard determinant formula, returned as a
`new Point(Ux, Uy)`.  Rational division is total; the division by `D` is
meaningful whenever the vertices are not collinear (`D` nonzero), which is
the case at every input considered here. -/
def Triangle.getCircumcenter (t : Triangle) : EPt :=
  let a := t.v1
  let b := t.v2
  let c := t.v3
  let d := 2 * (a.x * (b.y - c.y) + b.x * (c.y - a.y) + c.x * (a.y - b.y))
  let ux := ((a.x * a.x + a.y * a.y) * (b.y - c.y) +
             (b.x * b.x + b.y * b.y) * (c.y - a.y) +
             (c.x * c.x + c.y * c.y) * (a.y - b.y)) / d
  let uy := ((a.x * a.x + a.y * a.y) * (c.x - b.x) +
             (b.x * b.x + b.y * b.y) * (a.x - c.x) +
             (c.x * c.x + c.y * c.y) * (b.x - a.x)) / d
  mkEPt ux uy

/-- `Point.distanceTo` of `base/Point.ts` (lines 151-164), Cartesian branch:
`sqrt(dx*dx + dy*dy)` on the x/y coordinates.  (The guard clauses that throw
for mismatched or geographic coordinate systems are upstream of this
computation; all points considered here are Cartesian 2D.) -/
noncomputable def EPt.distanceTo (p q : EPt) : ℝ :=
  Real.sqrt (((p.x - q.x : ℚ) : ℝ) * ((p.x - q.x : ℚ) : ℝ) +
             ((p.y - q.y : ℚ) : ℝ) * ((p.y - q.y : ℚ) : ℝ))

/-- `Triangle.inCircumcircle` (surface/Triangle.ts lines 74-78): true exactly
when the distance from the point to the circumcenter is strictly less than
the distance from the circumcenter to the first stored vertex (the
circumradius). -/
def Triangle.inCircumcircle (t : Triangle) (p : EPt) : Prop :=
  p.distanceTo t.getCircumcenter < t.getCircumcenter.distanceTo t.v1

/-! ## TIN construction (MultiPolygon.ts, `TIN` class) -/

/-- `TIN.validatePoints` (MultiPolygon.ts lines 214-230): throw for fewer
than 3 points, for an inconsistent coordinate system, or for inconsistent
2D/3D dimensionality; otherwise return normally.  The length check runs
before `points[0]` is read, so the empty list reaches the length error. -/
def TIN.validatePoints (pts : List EPt) : Except GeoError Unit :=
  match pts with
  | [] => Except.error GeoError.tinRequiresAtLeastThreePoints
  | p :: rest =>
    if (p :: rest).length < 3 then
      Except.error GeoError.tinRequiresAtLeastThreePoints
    else if ¬ (p :: rest).all (fun q => q.cs == p.cs) then
      Except.error GeoError.mixedCoordinateSystem
    else if ¬ (p :: rest).all (fun q => q.is3D == p.is3D) then
      Except.error GeoError.mixedDimensionality
    else Except.ok ()

/-- The duplicate-point scan of `TIN.validate` (MultiPolygon.ts lines
585-593), run only after construction: one error is pushed for every point
whose `(x, y)` key is already in the map.  This returns the number of
errors pushed. -/
def TIN.duplicateErrorCount (pts : List EPt) : ℕ :=
  (pts.foldl
    (fun (acc : List (ℚ × ℚ) × ℕ) p =>
      if (p.x, p.y) ∈ acc.1 then (acc.1, acc.2 + 1)
      else ((p.x, p.y) :: acc.1, acc.2))
    ([], 0)).2

/-! ## Concrete fixtures used by the scenario claims -/

/-- The counter-clockwise 10x10 square ring of the spec scenarios. -/
def sqRing10 : List Pt :=
  [{ x := 0, y := 0 }, { x := 10, y := 0 }, { x := 10, y := 10 },
   { x := 0, y := 10 }, { x := 0, y := 0 }]

/-- The 2x2 interior ring (hole) of the polygon-with-hole scenario. -/
def holeRing46 : List Pt :=
  [{ x := 4, y := 4 }, { x := 6, y := 4 }, { x := 6, y := 6 },
   { x := 4, y := 6 }, { x := 4, y := 4 }]

/-- Polygon with the square exterior ring and no holes. -/
def sqPolygon : Polygon := { exterior := sqRing10, interiors := [] }

/-- Polygon with the square exterior ring and the 2x2 hole. -/
def sqPolygonWithHole : Polygon := { exterior := sqRing10, interiors := [holeRing46] }

/-- A closed LineString: a triangle ring. -/
def closedTriRing : List Pt :=
  [{ x := 0, y := 0 }, { x := 1, y := 0 }, { x := 0, y := 1 }, { x := 0, y := 0 }]

/-- An open LineString with start (0,0) and end (3,4). -/
def openPath : List Pt :=
  [{ x := 0, y := 0 }, { x := 3, y := 0 }, { x := 3, y := 4 }]

/-- Right triangle (0,0), (2,0), (0,2); its circumcenter is (1,1) and its
circumradius is the square root of 2. -/
def triEx : Triangle := mkTriangle (mkEPt 0 0) (mkEPt 2 0) (mkEPt 0 2)

/-- The point (2,2), at distance exactly the circumradius from the
circumcenter of `triEx`. -/
def ptEx : EPt := mkEPt 2 2

/-- A TIN input list containing the coincident point (0,0) twice. -/
def dupPts : List EPt := [mkEPt 0 0, mkEPt 0 0, mkEPt 1 0]

/-! ## Helper lemmas -/

theorem EPt.clone_eq (p : EPt) : p.clone = p := rfl

theorem Pt.equals_true_iff (p q : Pt) : Pt.equals p q = true ↔ p = q := by
  cases p with
  | mk px py =>
    cases q with
    | mk qx qy =>
      simp [Pt.equals, Pt.mk.injEq]

/-! ## Claim theorems -/

/-- C1: polygon area follows the shoelace formula with holes subtracted. For
the polygon whose exterior ring is (0,0),(10,0),(10,10),(0,10),(0,0) the
area is 100; with the interior ring (4,4),(6,4),(6,6),(4,6),(4,4) added the
area is 96 and the number of interior rings is 1. -/
theorem c1_polygon_area_scenario :
    Polygon.area sqPolygon = 100 ∧
    Polygon.area sqPolygonWithHole = 96 ∧
    Polygon.numInteriorRing sqPolygonWithHole = 1 := by
  refine ⟨?_, ?_, rfl⟩ <;>
    norm_num [Polygon.area, Polygon.calculateRingArea, Polygon.shoelaceSum,
      sqPolygon, sqPolygonWithHole, sqRing10, holeRing46]

/-- C3: evaluation of the orientation predicates on the square fixture. For
the counter-clockwise square (0,0),(10,0),(10,10),(0,10),(0,0) the
orientation sum (x[i+1]-x[i])*(y[i+1]+y[i]) is -200, so isCounterClockwise
returns false and isClockwise returns true; on the reversed (clockwise)
point order the sum is +200, so isCounterClockwise returns true and
isClockwise returns false.  This contradicts the claim (and the method
comment, which says the sum is a signed area, positive for
counter-clockwise). -/
theorem c3_orientation_eval :
    LinearRing.isCounterClockwise sqRing10 = false ∧
    LinearRing.isClockwise sqRing10 = true ∧
    LinearRing.isCounterClockwise sqRing10.reverse = true ∧
    LinearRing.isClockwise sqRing10.reverse = false := by
  refine ⟨?_, ?_, ?_, ?_⟩ <;>
    norm_num [LinearRing.isCounterClockwise, LinearRing.isClockwise,
      LinearRing.orientationSum, sqRing10]

/-- C7: evaluation of Curve.boundary.  For the open LineString
(0,0),(3,0),(3,4) the boundary is the 2-point aggregate of its start and end
points, as claimed; but for a closed LineString the boundary is the
`new Point()` sentinel, whose isEmpty() is hard-coded false, contradicting
the claim that the returned geometry is empty. -/
theorem c7_boundary_eval :
    Curve.boundary openPath =
      BoundaryGeom.multiPoint [{ x := 0, y := 0 }, { x := 3, y := 4 }] ∧
    Curve.boundary closedTriRing = BoundaryGeom.point defaultPt ∧
    (Curve.boundary closedTriRing).isEmptyG = false := by
  refine ⟨?_, ?_, ?_⟩ <;>
    norm_num [Curve.boundary, BoundaryGeom.isEmptyG, LineString.isEmpty,
      LineString.isClosed, Pt.equals, openPath, closedTriRing, defaultPt]

/-- C9 counterexample: on a LinearRing, addPoint does not behave as the claim
states.  Inserting the first point (0,0) into an empty ring grows the point
count by two, not one; and inserting (1,1) into the ring [(0,0),(0,0)]
yields [(0,0),(0,0),(0,0)], whose last stored point is (0,0), not the given
point (1,1). -/
theorem c9_addPoint_counterexample :
    (LinearRing.addPoint [] { x := 0, y := 0 }).length = 2 ∧
    LinearRing.addPoint [{ x := 0, y := 0 }, { x := 0, y := 0 }] { x := 1, y := 1 } =
      [{ x := 0, y := 0 }, { x := 0, y := 0 }, { x := 0, y := 0 }] ∧
    (LinearRing.addPoint [{ x := 0, y := 0 }, { x := 0, y := 0 }]
        { x := 1, y := 1 }).getLast? ≠ some { x := 1, y := 1 } := by
  refine ⟨rfl, rfl, ?_⟩
  simp [LinearRing.addPoint, LineString.addPoint, Pt.mk.injEq]

/-- C9 amended: LineString.addPoint appends the given point (the count grows
by one and the last stored point equals it).  LinearRing.addPoint instead
re-establishes closure: the first insertion stores the point twice, and
every later insertion appends and then overwrites the last slot with the
first stored point, so the inserted point itself is not retained; after
every addPoint call the ring first point equals its last point. -/
theorem c9_addPoint_amended :
    (∀ (xs : List Pt) (p : Pt),
        LineString.addPoint xs p = xs ++ [p] ∧
        (LineString.addPoint xs p).length = xs.length + 1 ∧
        (LineString.addPoint xs p).getLast? = some p) ∧
    (∀ p : Pt, LinearRing.addPoint [] p = [p, p]) ∧
    (∀ (q : Pt) (rest : List Pt) (p : Pt),
        LinearRing.addPoint (q :: rest) p = (q :: rest) ++ [q]) ∧
    (∀ (xs : List Pt) (p : Pt),
        (LinearRing.addPoint xs p).head? = (LinearRing.addPoint xs p).getLast?) := by
  have hcons : ∀ (q : Pt) (rest : List Pt) (p : Pt),
      LinearRing.addPoint (q :: rest) p = (q :: rest) ++ [q] := by
    intro q rest p
    simp only [LinearRing.addPoint, LineString.addPoint]
    rw [if_neg (by simp)]
    simp only [List.cons_append, List.headD_cons]
    rw [← List.cons_append, List.dropLast_concat, List.cons_append]
  refine ⟨?_, ?_, hcons, ?_⟩
  · intro xs p
    refine ⟨rfl, by simp [LineString.addPoint], ?_⟩
    simp [LineString.addPoint]
  · intro p
    rfl
  · intro xs p
    cases xs with
    | nil => rfl
    | cons q rest =>
      rw [hcons q rest p]
      simp only [List.cons_append, List.head?_cons]
      rw [← List.cons_append, List.getLast?_concat]

/-- C6 counterexample: the points (0,0) and (1e-10, 0) differ by at most
1e-10 in each coordinate, yet equals returns false: Point.equals compares
coordinates exactly, with no epsilon tolerance. -/
theorem c6_epsilon_counterexample :
    |(0 : ℚ) - 1 / 10 ^ 10| ≤ 1 / 10 ^ 10 ∧
    |(0 : ℚ) - 0| ≤ 1 / 10 ^ 10 ∧
    Pt.equals { x := 0, y := 0 } { x := 1 / 10 ^ 10, y := 0 } = false := by
  refine ⟨by rw [abs_le]; norm_num, by norm_num, ?_⟩
  simp [Pt.equals]
  norm_num

/-- C6 amended: point equality is exact coordinate-wise comparison with no
tolerance.  For Point.ts, equals is true exactly when the two points have
identical coordinates; for base/Point.ts, equals is true exactly when x, y
and z all agree (SRID and coordinate system are not compared). -/
theorem c6_equals_exact :
    (∀ p q : Pt, Pt.equals p q = true ↔ p = q) ∧
    (∀ p q : EPt, EPt.equals p q = true ↔ p.x = q.x ∧ p.y = q.y ∧ p.z = q.z) := by
  refine ⟨Pt.equals_true_iff, ?_⟩
  intro p q
  unfold EPt.equals
  split_ifs with h1 h2
  · simp only [Bool.false_eq_true, false_iff]
    intro hc
    rcases h1 with h | h
    · exact h hc.1
    · exact h hc.2.1
  · push_neg at h1
    simp [h1.1, h1.2, beq_iff_eq]
  · push_neg at h1
    have hz : p.z = none := by
      cases hp : p.z with
      | none => rfl
      | some v =>
        exfalso
        apply h2
        simp [EPt.is3D, hp]
    have hz2 : q.z = none := by
      cases hq : q.z with
      | none => rfl
      | some v =>
        exfalso
        apply h2
        simp [EPt.is3D, hq]
    simp [h1.1, h1.2, hz, hz2]

/-- C10: Triangle constructor invariant.  For every input triple (v1,v2,v3),
the stored vertex order returned by getVertices has nonnegative cross
product (v2.x-v1.x)*(v3.y-v1.y) - (v3.x-v1.x)*(v2.y-v1.y); the constructor
keeps the given order when that cross product is positive and otherwise
swaps the second and third vertices. -/
theorem c10_triangle_orientation (v1 v2 v3 : EPt) :
    0 ≤ Triangle.crossProduct (Triangle.getVertices (mkTriangle v1 v2 v3)).1
        (Triangle.getVertices (mkTriangle v1 v2 v3)).2.1
        (Triangle.getVertices (mkTriangle v1 v2 v3)).2.2 ∧
    Triangle.getVertices (mkTriangle v1 v2 v3) =
      if 0 < Triangle.crossProduct v1 v2 v3 then (v1, v2, v3) else (v1, v3, v2) := by
  have hswap : Triangle.crossProduct v1 v3 v2 = - Triangle.crossProduct v1 v2 v3 := by
    unfold Triangle.crossProduct
    ring
  by_cases h : 0 < Triangle.crossProduct v1 v2 v3
  · constructor
    · simp [mkTriangle, Triangle.isClockwise, h, Triangle.getVertices, EPt.clone_eq]
      exact le_of_lt h
    · simp [mkTriangle, Triangle.isClockwise, h, Triangle.getVertices, EPt.clone_eq]
  · constructor
    · simp [mkTriangle, Triangle.isClockwise, h, Triangle.getVertices, EPt.clone_eq]
      rw [hswap]
      linarith [not_lt.mp h]
    · simp [mkTriangle, Triangle.isClockwise, h, Triangle.getVertices, EPt.clone_eq]

/-- C8 counterexample: the pre-triangulation validation of the TIN
constructor accepts an input list that contains the coincident point (0,0)
twice, so construction proceeds to triangulation instead of failing with a
duplicate-point error. -/
theorem c8_duplicates_pass_validation :
    TIN.validatePoints dupPts = Except.ok () := by
  rfl

/-- C8 amended: the TIN constructor validation rejects only too-few points,
mixed coordinate systems and mixed dimensionality - validatePoints succeeds
exactly when there are at least 3 points, all with the coordinate system and
the dimensionality of the first; coincident points are not rejected before
triangulation and are only reported by the post-construction validate()
scan, which reports one error for the duplicated point of the fixture. -/
theorem c8_validatePoints_amended :
    (∀ pts : List EPt, TIN.validatePoints pts = Except.ok () ↔
      (3 ≤ pts.length ∧
       pts.all (fun q => q.cs == (pts.headD (mkEPt 0 0)).cs) = true ∧
       pts.all (fun q => q.is3D == (pts.headD (mkEPt 0 0)).is3D) = true)) ∧
    TIN.duplicateErrorCount dupPts = 1 := by
  constructor
  · intro pts
    cases pts with
    | nil => simp [TIN.validatePoints]
    | cons p rest =>
      simp only [TIN.validatePoints, List.headD_cons]
      by_cases h1 : (p :: rest).length < 3
      · rw [if_pos h1]
        simp only [reduceCtorEq, false_iff]
        intro hc
        exact absurd hc.1 (by omega)
      · rw [if_neg h1]
        by_cases h2 : (p :: rest).all (fun q => q.cs == p.cs) = true
        · rw [if_neg (not_not_intro h2)]
          by_cases h3 : (p :: rest).all (fun q => q.is3D == p.is3D) = true
          · rw [if_neg (not_not_intro h3)]
            constructor
            · intro _
              exact ⟨by omega, h2, h3⟩
            · intro _
              rfl
          · rw [if_pos h3]
            simp only [reduceCtorEq, false_iff]
            intro hc
            exact h3 hc.2.2
        · rw [if_pos h2]
          simp only [reduceCtorEq, false_iff]
          intro hc
          exact h2 hc.2.1
  · rfl

theorem triEx_eval : triEx = { v1 := mkEPt 0 0, v2 := mkEPt 2 0, v3 := mkEPt 0 2 } := by
  simp [triEx, mkTriangle, Triangle.isClockwise, Triangle.crossProduct, mkEPt]

theorem triEx_circumcenter : triEx.getCircumcenter = mkEPt 1 1 := by
  rw [triEx_eval]
  simp only [Triangle.getCircumcenter, mkEPt]
  norm_num

theorem triEx_dist_eq :
    EPt.distanceTo ptEx triEx.getCircumcenter =
      EPt.distanceTo triEx.getCircumcenter triEx.v1 := by
  rw [triEx_circumcenter, triEx_eval]
  simp only [EPt.distanceTo, ptEx, mkEPt]
  norm_num

/-- C4 counterexample: for the triangle (0,0),(2,0),(0,2) and the point
(2,2), the distance from the point to the circumcenter (1,1) equals the
circumradius (both are the square root of 2), yet inCircumcircle reports
the point as not inside - the comparison is strict. -/
theorem c4_circumcircle_counterexample :
    EPt.distanceTo ptEx triEx.getCircumcenter =
      EPt.distanceTo triEx.getCircumcenter triEx.v1 ∧
    ¬ Triangle.inCircumcircle triEx ptEx := by
  refine ⟨triEx_dist_eq, ?_⟩
  unfold Triangle.inCircumcircle
  rw [triEx_dist_eq]
  exact lt_irrefl _

/-- C4 amended: the circumcircle membership test is exclusive, not inclusive.
For every triangle and every point whose distance to the circumcenter is
exactly the circumradius (the distance from the circumcenter to the first
stored vertex), inCircumcircle reports the point as not inside. -/
theorem c4_circumcircle_exclusive (t : Triangle) (p : EPt)
    (h : EPt.distanceTo p t.getCircumcenter =
      EPt.distanceTo t.getCircumcenter t.v1) :
    ¬ Triangle.inCircumcircle t p := by
  unfold Triangle.inCircumcircle
  rw [h]
  exact lt_irrefl _

/-- C4 witness: the amended theorem applied to the concrete triangle
(0,0),(2,0),(0,2) and the on-circle point (2,2). -/
theorem c4_circumcircle_exclusive_witness :
    ¬ Triangle.inCircumcircle triEx ptEx :=
  c4_circumcircle_exclusive triEx ptEx triEx_dist_eq

/-- C2: evaluation of Surface.contains.  The ray-casting interior test can
never report a point as interior, because rayIntersectsCurve returns false
unconditionally and because the boundary loops call the 1-indexed geometryN
starting from index 0, which throws; concretely, for the 10x10 square
polygon and the strictly interior point (5,5), contains throws Geometry
index out of range instead of returning true. -/
theorem c2_contains_eval :
    (∀ (items : List (List Pt)) (p : Pt),
        Surface.isPointInInterior items p ≠ Except.ok true) ∧
    Surface.contains sqPolygon { x := 5, y := 5 } =
      Except.error GeoError.geometryIndexOutOfRange := by
  constructor
  · intro items p
    cases items with
    | nil =>
      simp [Surface.isPointInInterior, Surface.interiorLoop, List.range_zero,
        Bind.bind, Except.bind]
    | cons c cs =>
      rw [Surface.isPointInInterior, List.length_cons, List.range_succ_eq_map]
      simp [Surface.interiorLoop, geometryN, Bind.bind, Except.bind]
  · rfl

theorem mem_foldl_mapKeys (p : Pt) :
    ∀ (l ks : List Pt),
      p ∈ l.foldl (fun ks q => if q ∈ ks then ks else ks ++ [q]) ks ↔
        p ∈ ks ∨ p ∈ l
  | [], ks => by simp
  | q :: rest, ks => by
    rw [List.foldl_cons, mem_foldl_mapKeys p rest]
    by_cases hq : q ∈ ks
    · rw [if_pos hq]
      simp only [List.mem_cons]
      constructor
      · rintro (h | h)
        · exact Or.inl h
        · exact Or.inr (Or.inr h)
      · rintro (h | h | h)
        · exact Or.inl h
        · exact Or.inl (h ▸ hq)
        · exact Or.inr h
    · rw [if_neg hq]
      simp only [List.mem_append, List.mem_singleton, List.mem_cons]
      tauto

theorem mem_mapKeys (p : Pt) (l : List Pt) : p ∈ mapKeys l ↔ p ∈ l := by
  rw [mapKeys, mem_foldl_mapKeys]
  simp

theorem isClosed_head_eq_last (c : List Pt) (h : LineString.isClosed c = true) :
    c.headD defaultPt = c.getLastD defaultPt := by
  unfold LineString.isClosed at h
  split at h
  · exact absurd h (by simp)
  · exact (Pt.equals_true_iff _ _).mp h

theorem endpoint_count_parity (items : List (List Pt)) (p : Pt) :
    (MultiCurve.endpointSeq items).count p % 2 =
      (MultiCurve.claimEndpointSeq items).count p % 2 := by
  induction items with
  | nil => rfl
  | cons c rest ih =>
    rw [MultiCurve.endpointSeq, MultiCurve.claimEndpointSeq,
      List.flatMap_cons, List.flatMap_cons, List.count_append, List.count_append]
    rw [MultiCurve.endpointSeq, MultiCurve.claimEndpointSeq] at ih
    by_cases hemp : LineString.isEmpty c = true
    · rw [if_pos (by simp [hemp]), if_pos hemp]
      simpa using ih
    · rw [if_neg hemp]
      by_cases hcl : LineString.isClosed c = true
      · rw [if_pos (by simp [hemp, hcl])]
        have hhl := isClosed_head_eq_last c hcl
        have h2 : ([c.headD defaultPt, c.getLastD defaultPt].count p) % 2 = 0 := by
          rw [hhl]
          simp only [List.count_cons, List.count_nil]
          split_ifs <;> rfl
        simp only [List.count_nil, Nat.zero_add]
        omega
      · rw [if_neg (by simp [hemp, hcl])]
        omega

theorem boundaryPoints_mem_iff (items : List (List Pt)) (p : Pt) :
    p ∈ MultiCurve.boundaryPoints items ↔
      Odd ((MultiCurve.claimEndpointSeq items).count p) := by
  rw [MultiCurve.boundaryPoints, List.mem_filter, mem_mapKeys, Nat.odd_iff,
    ← endpoint_count_parity]
  constructor
  · intro h
    simpa using h.2
  · intro h
    refine ⟨?_, by simpa using h⟩
    have hpos : 0 < (MultiCurve.endpointSeq items).count p := by omega
    exact List.count_pos_iff.mp hpos

/-- C5 counterexample: the mod-2 characterization fails on the empty
MultiCurve.  There boundary() returns the new Point() sentinel - the
concrete point (0,0), whose isEmpty() is false - even though no point at
all, in particular not (0,0), occurs an odd number of times among the
member start and end points (there are no member curves, so every
occurrence count is 0, which is even). -/
theorem c5_boundary_empty_counterexample :
    MultiCurve.boundary [] = BoundaryGeom.point defaultPt ∧
    (MultiCurve.boundary []).isEmptyG = false ∧
    (MultiCurve.claimEndpointSeq []).count defaultPt = 0 :=
  ⟨rfl, rfl, rfl⟩

/-- C5 amended: for every non-empty MultiCurve, boundary() is the MultiPoint
containing exactly those points that occur an odd number of times among the
start and end points of its member curves (the mod-2 rule) - a point
belongs to it exactly when its occurrence count among all member start/end
points is odd, so an endpoint shared by exactly two open member curves
cancels out; the empty MultiCurve instead returns the new Point()
sentinel. -/
theorem c5_boundary_mod2_amended :
    (∀ (c : List Pt) (rest : List (List Pt)),
        MultiCurve.boundary (c :: rest) =
          BoundaryGeom.multiPoint (MultiCurve.boundaryPoints (c :: rest))) ∧
    MultiCurve.boundary [] = BoundaryGeom.point defaultPt ∧
    (∀ (items : List (List Pt)) (p : Pt),
        p ∈ MultiCurve.boundaryPoints items ↔
          Odd ((MultiCurve.claimEndpointSeq items).count p)) := by
  refine ⟨?_, rfl, boundaryPoints_mem_iff⟩
  intro c rest
  rw [MultiCurve.boundary, if_neg]
  simp

end GeoGis
